import Mathlib

/-!
Verification of the rate-governed request dispatcher of the `slack_objects`
package: the rate policy (`rate_limits.py`), the Web API dispatcher
(`api_caller.py`), the paginated collectors (`messages.py`), the SCIM
adapter (`scim_base.py`) and the masking `__repr__` (`config.py`).

Python floats are modelled as rationals (`ℚ`); every pacing constant in the
source (60.0, 3.0, 1.2, 0.6, 0.05) is an exact decimal whose `int( )`
truncation agrees between binary doubles and rationals, so nothing proved
here depends on binary rounding.
-/

namespace SlackObjects

/-- `RateTier` from `config.py`: a `float`-valued enum of pacing intervals. -/
inductive RateTier where
  | TIER_1
  | TIER_2
  | TIER_3
  | TIER_4
  | TIER_D
  deriving DecidableEq, Repr

/-- The numeric value of each tier, per `config.py`
(60.0, 3.0, 1.2, 0.6, 0.05 seconds). -/
def RateTier.toRat : RateTier → ℚ
  | .TIER_1 => mkRat 60 1
  | .TIER_2 => mkRat 3 1
  | .TIER_3 => mkRat 6 5
  | .TIER_4 => mkRat 3 5
  | .TIER_D => mkRat 1 20

/-- Python `int( )` applied to a float/rational: truncation toward zero
(`Int.tdiv` on the reduced fraction). -/
def pyTrunc (q : ℚ) : ℤ := Int.tdiv q.num (q.den : ℤ)

/-- Python `s.startswith(p)`, via character lists (the built-in
`String.startsWith` does not reduce in the kernel). -/
def pyStartsWith (s p : String) : Bool := p.data.isPrefixOf s.data

/-- `RateLimitPolicy` from `rate_limits.py`.  The Python `Mapping` fields are
modelled as association lists in insertion order (`dict` preserves insertion
order and has no duplicate keys).  `prefRules` embeds the source field
`prefix_rules`. -/
structure RateLimitPolicy where
  method_overrides : List (String × RateTier)
  prefRules : List (String × RateTier)
  default : RateTier
  deriving Repr

/-- `RateLimitPolicy.with_default`: copy with a different fallback tier. -/
def RateLimitPolicy.with_default (p : RateLimitPolicy) (tier : RateTier) :
    RateLimitPolicy :=
  { p with default := tier }

/-- One step of the `for prefix, tier in self.prefix_rules.items()` loop in
`RateLimitPolicy.tier_for`: keep the accumulator unless the candidate key is
a prefix of `method` and strictly longer than the best so far. -/
def tierStep (method : String) (best : Option (String × RateTier))
    (pr : String × RateTier) : Option (String × RateTier) :=
  if pyStartsWith method pr.1 &&
      (match best with
       | none => true
       | some b => decide (b.1.length < pr.1.length)) then
    some pr
  else
    best

/-- `RateLimitPolicy.tier_for` from `rate_limits.py`: exact override first,
then longest matching prefix, then the default tier. -/
def RateLimitPolicy.tier_for (p : RateLimitPolicy) (method : String) :
    RateTier :=
  match p.method_overrides.lookup method with
  | some t => t
  | none =>
    match p.prefRules.foldl (tierStep method) none with
    | some b => b.2
    | none => p.default

/-- `DEFAULT_RATE_POLICY` from `rate_limits.py`. -/
def DEFAULT_RATE_POLICY : RateLimitPolicy :=
  { method_overrides :=
      [("conversations.history", .TIER_3), ("files.upload", .TIER_2)],
    prefRules :=
      [("admin.", .TIER_1), ("scim.", .TIER_2), ("conversations.", .TIER_3),
       ("chat.", .TIER_3), ("files.", .TIER_2), ("users.", .TIER_2),
       ("team.", .TIER_2)],
    default := .TIER_3 }

/-- Each `tierStep` either keeps the accumulator or selects the current
rule, and it only selects a rule whose key is a prefix of `method`. -/
lemma tierStep_eq_or (method : String) (acc : Option (String × RateTier))
    (pr : String × RateTier) :
    tierStep method acc pr = acc ∨
      (tierStep method acc pr = some pr ∧ pyStartsWith method pr.1 = true) := by
  unfold tierStep
  split
  · next hcond =>
    exact Or.inr ⟨rfl, (Bool.and_eq_true _ _).mp hcond |>.1⟩
  · exact Or.inl rfl

/-- `tierStep` never discards a `some` accumulator down to `none`. -/
lemma tierStep_some_of_acc (method : String) (a : String × RateTier)
    (pr : String × RateTier) :
    ∃ c, tierStep method (some a) pr = some c := by
  rcases tierStep_eq_or method (some a) pr with h | ⟨h, _⟩
  · exact ⟨a, h⟩
  · exact ⟨pr, h⟩

/-- When the current rule matches, `tierStep` returns `some`. -/
lemma tierStep_some_of_match (method : String)
    (acc : Option (String × RateTier)) (pr : String × RateTier)
    (hm : pyStartsWith method pr.1 = true) :
    ∃ c, tierStep method acc pr = some c := by
  cases acc with
  | some a => exact tierStep_some_of_acc method a pr
  | none =>
    refine ⟨pr, ?_⟩
    unfold tierStep
    simp [hm]

/-- The result of `tierStep` is at least as long as a `some` accumulator. -/
lemma tierStep_ge_acc (method : String) (a : String × RateTier)
    (pr : String × RateTier) (c : String × RateTier)
    (hc : tierStep method (some a) pr = some c) :
    a.1.length ≤ c.1.length := by
  unfold tierStep at hc
  split at hc
  · next hcond =>
    have hlt := (Bool.and_eq_true _ _).mp hcond |>.2
    have hlen : a.1.length < pr.1.length := of_decide_eq_true hlt
    rw [Option.some_inj] at hc
    rw [← hc]
    omega
  · rw [Option.some_inj] at hc
    rw [hc]

/-- The result of `tierStep` is at least as long as a matching current
rule's key. -/
lemma tierStep_ge_match (method : String) (acc : Option (String × RateTier))
    (pr : String × RateTier) (c : String × RateTier)
    (hm : pyStartsWith method pr.1 = true)
    (hc : tierStep method acc pr = some c) :
    pr.1.length ≤ c.1.length := by
  unfold tierStep at hc
  split at hc
  · rw [Option.some_inj] at hc
    rw [hc]
  · next hcond =>
    cases acc with
    | none => simp [hm] at hcond
    | some a =>
      rw [Option.some_inj] at hc
      subst hc
      by_contra hgt
      push_neg at hgt
      simp [hm, hgt] at hcond

/-- If the fold of `tierStep` ends in `none`, it started from `none` and no
rule key in the list is a prefix of `method`. -/
lemma tierStep_foldl_none (method : String) :
    ∀ (l : List (String × RateTier)) (acc : Option (String × RateTier)),
      l.foldl (tierStep method) acc = none →
      acc = none ∧ ∀ q ∈ l, pyStartsWith method q.1 = false := by
  intro l
  induction l with
  | nil => intro acc h; exact ⟨h, by simp⟩
  | cons p t ih =>
    intro acc h
    rw [List.foldl_cons] at h
    obtain ⟨hstep, hrest⟩ := ih _ h
    have hnm : pyStartsWith method p.1 = false := by
      by_contra hb
      rw [Bool.not_eq_false] at hb
      obtain ⟨c, hc⟩ := tierStep_some_of_match method acc p hb
      rw [hc] at hstep
      exact Option.noConfusion hstep
    have hacc : acc = none := by
      cases hacc' : acc with
      | none => rfl
      | some a =>
        obtain ⟨c, hc⟩ := tierStep_some_of_acc method a p
        rw [hacc', hc] at hstep
        exact Option.noConfusion hstep
    refine ⟨hacc, ?_⟩
    intro q hq
    rcases List.mem_cons.mp hq with hq | hq
    · subst hq; exact hnm
    · exact hrest q hq

/-- If the fold of `tierStep` ends in `some b`, then `b` either was the
starting accumulator or is an element of the list matched by `method`. -/
lemma tierStep_foldl_some_mem (method : String) :
    ∀ (l : List (String × RateTier)) (acc : Option (String × RateTier)) (b),
      l.foldl (tierStep method) acc = some b →
      (b ∈ l ∧ pyStartsWith method b.1 = true) ∨ acc = some b := by
  intro l
  induction l with
  | nil => intro acc b h; exact Or.inr h
  | cons p t ih =>
    intro acc b h
    rw [List.foldl_cons] at h
    rcases ih _ _ h with hmem | hacc
    · exact Or.inl ⟨List.mem_cons_of_mem _ hmem.1, hmem.2⟩
    · rcases tierStep_eq_or method acc p with heq | ⟨heq, hm⟩
      · exact Or.inr (by rw [← heq]; exact hacc)
      · rw [heq, Option.some_inj] at hacc
        subst hacc
        exact Or.inl ⟨List.mem_cons_self _ _, hm⟩

/-- The fold result dominates in key length every matching list element and
the starting accumulator. -/
lemma tierStep_foldl_some_max (method : String) :
    ∀ (l : List (String × RateTier)) (acc : Option (String × RateTier)) (b),
      l.foldl (tierStep method) acc = some b →
      (∀ q ∈ l, pyStartsWith method q.1 = true → q.1.length ≤ b.1.length) ∧
      (∀ a, acc = some a → a.1.length ≤ b.1.length) := by
  intro l
  induction l with
  | nil =>
    intro acc b h
    refine ⟨by simp, ?_⟩
    intro a ha
    rw [ha] at h
    simp only [List.foldl_nil, Option.some_inj] at h
    rw [h]
  | cons p t ih =>
    intro acc b h
    rw [List.foldl_cons] at h
    obtain ⟨hall, hup⟩ := ih _ _ h
    constructor
    · intro q hq hm
      rcases List.mem_cons.mp hq with hq | hq
      · subst hq
        obtain ⟨c, hc⟩ := tierStep_some_of_match method acc q hm
        have h1 := tierStep_ge_match method acc q c hm hc
        have h2 := hup c hc
        omega
      · exact hall q hq hm
    · intro a ha
      subst ha
      obtain ⟨c, hc⟩ := tierStep_some_of_acc method a p
      have h1 := tierStep_ge_acc method a p c hc
      have h2 := hup c hc
      omega

/-! ## `api_caller.py`: the Web API dispatcher `SlackApiCaller.call` -/

/-- Digit-string to number: `some` iff the characters are one or more
decimal digits. -/
def natOfDigits (cs : List Char) : Option Nat :=
  if cs ≠ [] && cs.all (·.isDigit) then
    some (cs.foldl (fun a c => a * 10 + (c.toNat - '0'.toNat)) 0)
  else none

/-- Strip surrounding whitespace from a character list (Python
`str.strip()`; done on lists because `String.trim` does not reduce in the
kernel). -/
def pyStrip (cs : List Char) : List Char :=
  List.rdropWhile Char.isWhitespace (cs.dropWhile Char.isWhitespace)

/-- Python `int(s)` on a string: strip surrounding whitespace, optional
sign, then decimal digits; `none` models the `ValueError` raised otherwise.
(Python's underscore digit separators are not modelled; no claim involves
them.) -/
def pyIntOfString (s : String) : Option Int :=
  match pyStrip s.data with
  | [] => none
  | '+' :: rest => (natOfDigits rest).map Int.ofNat
  | '-' :: rest => (natOfDigits rest).map (fun n => -(n : Int))
  | cs => (natOfDigits cs).map Int.ofNat

/-- Outcome of one transport invocation (`client.api_call`), as observed by
the `try/except` in `SlackApiCaller.call`: a normal response, a
`SlackApiError` carrying a response (status code and optional
`Retry-After` header), a `SlackApiError` with `response is None`, or any
other exception. -/
inductive TransportResult (α : Type) where
  | success (data : α)
  | apiError (status : Nat) (retryAfterHeader : Option String)
  | apiErrorNoResponse
  | otherError
  deriving DecidableEq, Repr

/-- One transport invocation as recorded for the trace: the method string,
the keyword arguments (opaque, type `κ`) and the `use_json` flag deciding
whether `api_call` is given `json=kwargs` or `params=kwargs`. -/
structure SendEvent (κ : Type) where
  method : String
  kwargs : κ
  useJson : Bool
  deriving DecidableEq, Repr

/-- The ways `SlackApiCaller.call` can fail: the `RuntimeError`
`f"Rate-limited 5 times on {method}; giving up."` (spec name
`ThrottleExhausted`; the argument is the interpolated method), a re-raised
`SlackApiError` with a response, a re-raised `SlackApiError` without one, a
propagated non-Slack exception, or the model-only fuel marker (unreachable
from `SlackApiCaller.call`, see `callFuel`). -/
inductive CallError where
  | throttleExhausted (method : String)
  | slackApi (status : Nat) (retryAfterHeader : Option String)
  | slackApiNoResponse
  | transport
  | modelFuelExhausted
  deriving DecidableEq, Repr

instance {ε α : Type} [DecidableEq ε] [DecidableEq α] :
    DecidableEq (Except ε α) := fun a b =>
  match a, b with
  | .ok x, .ok y =>
    if h : x = y then .isTrue (congrArg _ h)
    else .isFalse (fun hc => h (Except.ok.inj hc))
  | .error x, .error y =>
    if h : x = y then .isTrue (congrArg _ h)
    else .isFalse (fun hc => h (Except.error.inj hc))
  | .ok _, .error _ => .isFalse (fun hc => Except.noConfusion hc)
  | .error _, .ok _ => .isFalse (fun hc => Except.noConfusion hc)

namespace SlackApiCaller

/-- How one level of `SlackApiCaller.call` ends: terminal with a result
and the `time.sleep` durations taken at this level, or a retry after the
computed wait. -/
inductive AttemptOutcome (α : Type) where
  | finish (res : Except CallError α) (waits : List ℚ)
  | retryAfter (wait : ℚ)

/-- One level of `SlackApiCaller.call`, before any recursion: the
`try/except` body for attempt number `retryCount`.  On success the pacing
sleep `time.sleep(float(tier))` is taken; on a 429 with retries left the
wait is `int(e.response.headers.get("Retry-After", tier))`, falling back
to `int(float(tier))` on `ValueError`/`TypeError` (a missing header gives
`int(tier)`; both truncate the tier); every other exception is terminal. -/
def attempt {α : Type} (transport : Nat → TransportResult α)
    (method : String) (rate_tier : Option RateTier)
    (policy : RateLimitPolicy) (retryCount : Nat) : AttemptOutcome α :=
  -- `tier = rate_tier or self.policy.tier_for(method)`: every RateTier
  -- value is a nonzero float (truthy), so Python's `or` is a None-check.
  let tier := rate_tier.getD (policy.tier_for method)
  match transport retryCount with
  | .success d => .finish (.ok d) [tier.toRat]
  | .apiError status hdr =>
    if status = 429 then
      if 5 ≤ retryCount then
        -- `raise RuntimeError(f"Rate-limited 5 times on {method}; ...")`
        .finish (.error (.throttleExhausted method)) []
      else
        .retryAfter
          (match hdr with
           | some s =>
             match pyIntOfString s with
             | some n => (n : ℚ)
             | none => ((pyTrunc tier.toRat : ℤ) : ℚ)
           | none => ((pyTrunc tier.toRat : ℤ) : ℚ))
    else
      -- non-429 SlackApiError: `raise` re-raises it unchanged
      .finish (.error (.slackApi status hdr)) []
  | .apiErrorNoResponse => .finish (.error .slackApiNoResponse) []
  | .otherError => .finish (.error .transport) []

/-- The recursion of `SlackApiCaller.call`, structural on `fuel` so the
kernel can evaluate it.  `retryCount` is the source's `_retry_count`; the
transport is indexed by it (each level sends exactly once, so level `r`
performs send number `r`).  The result is the outcome together with the
trace of transport invocations and the trace of `time.sleep` durations, in
order.  A retry recurses as the source does:
`self.call(client, method, rate_tier=tier, use_json=use_json,
_retry_count=_retry_count + 1, **kwargs)`.  The `fuel = 0` retry
fallthrough is a modelling artifact: the wrapper `call` supplies
`fuel = 5 - retryCount`, which the recursion preserves, and a level only
retries when `retryCount < 5`, so the branch is unreachable from `call`. -/
def callFuel {α κ : Type} (transport : Nat → TransportResult α)
    (method : String) (use_json : Bool) (kwargs : κ)
    (policy : RateLimitPolicy) :
    Option RateTier → Nat → Nat →
      Except CallError α × List (SendEvent κ) × List ℚ
  | rate_tier, 0, retryCount =>
    let ev : SendEvent κ := ⟨method, kwargs, use_json⟩
    (match attempt transport method rate_tier policy retryCount with
     | .finish res w => (res, [ev], w)
     | .retryAfter ra => (.error .modelFuelExhausted, [ev], [ra]))
  | rate_tier, fuel + 1, retryCount =>
    let ev : SendEvent κ := ⟨method, kwargs, use_json⟩
    (match attempt transport method rate_tier policy retryCount with
     | .finish res w => (res, [ev], w)
     | .retryAfter ra =>
       let tier := rate_tier.getD (policy.tier_for method)
       let rest := callFuel transport method use_json kwargs policy
         (some tier) fuel (retryCount + 1)
       (rest.1, ev :: rest.2.1, ra :: rest.2.2))

/-- `SlackApiCaller.call` from `api_caller.py` (`MAX_RETRIES = 5`).  The
fuel `5 - retryCount` is exact: a level that recurses has
`retryCount < 5`, so fuel only runs out where the source itself stops. -/
def call {α κ : Type} (transport : Nat → TransportResult α) (method : String)
    (rate_tier : Option RateTier) (use_json : Bool) (kwargs : κ)
    (policy : RateLimitPolicy) (retryCount : Nat) :
    Except CallError α × List (SendEvent κ) × List ℚ :=
  callFuel transport method use_json kwargs policy rate_tier
    (5 - retryCount) retryCount

/-- The non-throttle failure classification of a transport outcome, and
the error `SlackApiCaller.call` propagates for it: a `SlackApiError` with a
status other than 429, a `SlackApiError` without a response, or a
non-Slack exception.  `none` for a success or a throttle signal. -/
def asNonThrottleError {α : Type} : TransportResult α → Option CallError
  | .apiError status hdr =>
    if status = 429 then none else some (.slackApi status hdr)
  | .apiErrorNoResponse => some .slackApiNoResponse
  | .otherError => some .transport
  | .success _ => none

end SlackApiCaller

/-! ## `messages.py`: the pagination loops of `Messages.get_messages`
(lines 233–250) and `Messages.get_message_threads` (lines 181–198), which
are textually identical: extend the accumulator with the page's
`messages`, truncate and stop once a supplied limit is reached, otherwise
continue while `next_cursor` is non-empty. -/

/-- One page as the loop observes it: `resp.get("ok")` truthiness,
`resp.get("messages") or []`, and
`((resp.get("response_metadata") or {}).get("next_cursor")) or ""`
(absent metadata or cursor collapses to `""`). -/
structure Page (α : Type) where
  ok : Bool
  messages : List α
  next_cursor : String
  deriving DecidableEq, Repr

/-- Outcome of the pagination loop: the collected list, the
`RuntimeError("conversations.* failed: ...")` raised on a not-ok page, or
the model-only marker for running off the end of the supplied page list
(the source's `while True` would fetch again; the claims' hypotheses put a
page with an empty cursor before that point). -/
inductive CollectOutcome (α : Type) where
  | done (items : List α)
  | failed
  | outOfPages
  deriving DecidableEq, Repr

/-- The pagination loop, fed the successive fetch results `pages`; returns
the outcome and the number of fetches performed. -/
def collectPages {α : Type} (limit : Option Nat) :
    List (Page α) → List α → CollectOutcome α × Nat
  | [], _ => (.outOfPages, 0)
  | p :: rest, acc =>
    if p.ok = false then (.failed, 1)
    else
      let out := acc ++ p.messages
      match limit with
      | some l =>
        if l ≤ out.length then (.done (out.take l), 1)
        else if p.next_cursor = "" then (.done out, 1)
        else
          let r := collectPages (some l) rest out
          (r.1, r.2 + 1)
      | none =>
        if p.next_cursor = "" then (.done out, 1)
        else
          let r := collectPages none rest out
          (r.1, r.2 + 1)

/-- A fetch-result sequence in which every page is ok, the last page's
cursor is empty and every earlier cursor is non-empty — the claims'
"fetcher returns an empty next-cursor on the k-th page". -/
inductive LastEmptyRun {α : Type} : List (Page α) → Prop
  | single (p : Page α) (hok : p.ok = true) (hc : p.next_cursor = "") :
      LastEmptyRun [p]
  | cons (p : Page α) (rest : List (Page α)) (hok : p.ok = true)
      (hc : p.next_cursor ≠ "") (h : LastEmptyRun rest) :
      LastEmptyRun (p :: rest)

/-- Total number of items on the first `j` pages. -/
def takeSum {α : Type} (ps : List (Page α)) (j : Nat) : Nat :=
  ((ps.take j).map (fun p => p.messages.length)).sum

/-! ## `scim_base.py`: identifier validation and `ScimMixin._scim_request` -/

/-- The character class of `_SLACK_ID_RE = ^[A-Za-z0-9_\-]+$`
(`Char.isAlphanum` is exactly ASCII `[A-Za-z0-9]`). -/
def isIdChar (c : Char) : Bool := c.isAlphanum || c = '_' || c = '-'

/-- `_SLACK_ID_RE.match(value)` as a Boolean, under Python `re` semantics:
`^[...]+` anchors at the start and `$` matches at the end of the string or
just before a terminating newline, so a valid body followed by one final
`'\n'` also matches. -/
def pyMatchIdRe (s : String) : Bool :=
  let cs := s.data
  match cs.getLast? with
  | some '\n' =>
    let t := cs.dropLast
    !t.isEmpty && t.all isIdChar
  | _ => !cs.isEmpty && cs.all isIdChar

/-- The `ValueError(f"Invalid {label}: {value!r}")` raised by
`validate_scim_id`, carrying the two interpolated pieces. -/
structure InvalidIdentifier where
  label : String
  value : String
  deriving DecidableEq, Repr

/-- `validate_scim_id` from `scim_base.py`: identity on the input unless
`not value or not _SLACK_ID_RE.match(value)`. -/
def validate_scim_id (value : String) (label : String) :
    Except InvalidIdentifier String :=
  if value = "" || !pyMatchIdRe value then .error ⟨label, value⟩
  else .ok value

/-- Decoded-JSON values as Python sees them; `null` is Python `None`. -/
inductive PyVal where
  | null
  | str (s : String)
  | arr (elems : List PyVal)
  | obj (fields : List (String × PyVal))

/-- Python `d.get(k) is None`: true when the key is absent *or* mapped to
`None` (a decoded JSON `null`). -/
def pyGetIsNone (d : List (String × PyVal)) (k : String) : Bool :=
  match d.lookup k with
  | none => true
  | some .null => true
  | some _ => false

/-- `requests.Response.ok` / the complement of the `raise_for_status`
condition: false exactly for status codes 400–599. -/
def respOk (status : Nat) : Bool := !(400 ≤ status && status < 600)

/-- A `requests` response as `_scim_request` consumes it: status code,
body text (`""` for an empty body) and the result of `resp.json()`
(`none` models the decode raising, which the source turns into
`{"_raw_text": text}`). -/
structure HttpResp where
  status_code : Nat
  text : String
  jsonBody : Option (List (String × PyVal))

/-- `ScimResponse` from `scim_base.py`. -/
structure ScimResponse where
  ok : Bool
  status_code : Nat
  data : List (String × PyVal)
  text : String

/-- The exceptions `_scim_request` can raise: the missing-token
`ValueError` and the `requests.HTTPError` from `raise_for_status`. -/
inductive ScimError where
  | missingToken
  | httpError (status : Nat)
  deriving DecidableEq, Repr

/-- One outgoing `self.scim_session.request(...)` invocation. -/
structure ScimRequest where
  httpMethod : String
  url : String
  authToken : String
  hasJsonBody : Bool
  timeout : Nat
  deriving DecidableEq, Repr

/-- Python `a or b` on optional strings: `a` unless it is `None` or
empty. -/
def pyOrStr (a b : Option String) : Option String :=
  match a with
  | some s => if s = "" then b else some s
  | none => b

/-- Python-truthiness of an optional string: false for `None` and `""`. -/
def pyTruthy (v : Option String) : Bool :=
  match v with
  | none => false
  | some s => s ≠ ""

/-! ## `config.py`: `SlackObjectsConfig` and its masking `__repr__` -/

/-- `SlackObjectsConfig` from `config.py`; the two access `dict`s are
association lists in insertion order. -/
structure SlackObjectsConfig where
  bot_token : Option String
  user_token : Option String
  scim_token : Option String
  default_rate_tier : RateTier
  auth_idp_groups_read_access : List (String × List String)
  auth_idp_groups_write_access : List (String × List String)
  scim_base_url : String
  scim_version : String
  http_timeout_seconds : Nat
  deriving DecidableEq, Repr

/-- The local `_mask` of `SlackObjectsConfig.__repr__`:
`"***" if val else "None"`, so Python truthiness, not a `None` test. -/
def mask (val : Option String) : String :=
  if pyTruthy val then "***" else "None"

/-- A single-quote character as a string (Python quotes in `repr`). -/
def sq : String := String.singleton (Char.ofNat 39)

/-- Python `repr` of a plain string (quote escaping not modelled; the keys
and values rendered here contain no quotes). -/
def pyStrRepr (s : String) : String := sq ++ s ++ sq

/-- Python `str` of a list of strings. -/
def pyListRepr (xs : List String) : String :=
  "[" ++ String.intercalate ", " (xs.map pyStrRepr) ++ "]"

/-- Python `str` of a `dict[str, list[str]]`. -/
def pyDictRepr (d : List (String × List String)) : String :=
  "\x7b" ++
    String.intercalate ", "
      (d.map (fun kv => pyStrRepr kv.1 ++ ": " ++ pyListRepr kv.2)) ++
  "\x7d"

/-- The f-string rendering of the `default_rate_tier` field (the enum
member's name-qualified form; the exact spelling is irrelevant to the
claims, which only need it to be a function of the tier). -/
def strRateTier : RateTier → String
  | .TIER_1 => "RateTier.TIER_1"
  | .TIER_2 => "RateTier.TIER_2"
  | .TIER_3 => "RateTier.TIER_3"
  | .TIER_4 => "RateTier.TIER_4"
  | .TIER_D => "RateTier.TIER_D"

/-- `SlackObjectsConfig.__repr__` from `config.py`: every field rendered,
with the three token fields passed through `_mask`. -/
def SlackObjectsConfig.reprStr (c : SlackObjectsConfig) : String :=
  "SlackObjectsConfig(" ++
  "bot_token=" ++ mask c.bot_token ++ ", " ++
  "user_token=" ++ mask c.user_token ++ ", " ++
  "scim_token=" ++ mask c.scim_token ++ ", " ++
  "default_rate_tier=" ++ strRateTier c.default_rate_tier ++ ", " ++
  "auth_idp_groups_read_access=" ++
    pyDictRepr c.auth_idp_groups_read_access ++ ", " ++
  "auth_idp_groups_write_access=" ++
    pyDictRepr c.auth_idp_groups_write_access ++ ", " ++
  "scim_base_url=" ++ c.scim_base_url ++ ", " ++
  "scim_version=" ++ c.scim_version ++ ", " ++
  "http_timeout_seconds=" ++ toString c.http_timeout_seconds ++ ")"

/-- Python `s.rstrip("/")`, via character lists. -/
def rstripSlashes (s : String) : String :=
  String.mk (List.rdropWhile (· = '/') s.data)

/-- Python `s.lstrip("/")`, via character lists. -/
def lstripSlashes (s : String) : String :=
  String.mk (s.data.dropWhile (· = '/'))

/-- Python `s.upper()` (`method.upper()`), via character lists. -/
def pyUpper (s : String) : String := String.mk (s.data.map Char.toUpper)

/-- Python `s.split("/")[0]`: the characters before the first `/` (for an
empty string, `split` yields `[""]`, and so does this). -/
def firstSegment (s : String) : String :=
  String.mk (s.data.takeWhile (· ≠ '/'))

namespace ScimMixin

/-- `ScimMixin._scim_base_url`:
`f"{self.cfg.scim_base_url.rstrip('/')}/{self.cfg.scim_version}/"`. -/
def _scim_base_url (cfg : SlackObjectsConfig) : String :=
  rstripSlashes cfg.scim_base_url ++ "/" ++ cfg.scim_version ++ "/"

/-- The single `self.scim_session.request(...)` invocation `_scim_request`
builds: uppercased method, base URL joined with the de-slashed path, the
bearer token, a JSON body exactly when a payload was given (which is also
when `Content-Type` is set), and the configured timeout. -/
def scimRequestOf (cfg : SlackObjectsConfig) (path method : String)
    (payload : Option (List (String × PyVal))) (tok : String) :
    ScimRequest :=
  { httpMethod := pyUpper method
    url := _scim_base_url cfg ++ lstripSlashes path
    authToken := "Bearer " ++ tok
    hasJsonBody := payload.isSome
    timeout := cfg.http_timeout_seconds }

/-- `ScimMixin._scim_request` from `scim_base.py`.  The
`requests.Session` is modelled as a function from the outgoing request to
the response; the result carries the outcome, the list of transport
invocations performed (the source's single `self.scim_session.request`
call) and the `time.sleep` durations.  Note there is no retry logic in
this function: one request is issued, `raise_for_status` may raise
`requests.HTTPError`, and otherwise the `ScimResponse` is built with
`ok = resp.ok and (data.get("Errors") is None)` and the rate-tier sleep is
taken from `scim.<first path segment>`. -/
def _scim_request (cfg : SlackObjectsConfig) (policy : RateLimitPolicy)
    (session : ScimRequest → HttpResp) (path : String) (method : String)
    (payload : Option (List (String × PyVal))) (token : Option String)
    (raiseForStatus : Bool) (rate_tier : Option RateTier) :
    Except ScimError ScimResponse × List ScimRequest × List ℚ :=
  -- `tok = token or self.cfg.scim_token`; `if not tok: raise ValueError`
  let tok := pyOrStr token cfg.scim_token
  if pyTruthy tok = false then (.error .missingToken, [], [])
  else
    let req := scimRequestOf cfg path method payload (tok.getD "")
    let resp := session req
    if raiseForStatus && !respOk resp.status_code then
      (.error (.httpError resp.status_code), [req], [])
    else
      let text := resp.text
      let data :=
        if text = "" then []
        else
          match resp.jsonBody with
          | some d => d
          | none => [("_raw_text", PyVal.str text)]
      let ok := respOk resp.status_code && pyGetIsNone data "Errors"
      let root := firstSegment (lstripSlashes path)
      let tier := rate_tier.getD (policy.tier_for ("scim." ++ root))
      (.ok { ok := ok, status_code := resp.status_code, data := data,
             text := text },
       [req], [tier.toRat])

end ScimMixin

/-! ## Theorems -/

/-- C3: `tier_for` resolves an operation name by exact override first
(exact match wins even when prefix rules also match); otherwise, when at
least one prefix-rule key is a prefix of the name, it returns the interval
of the longest such prefix; otherwise the policy's default interval. -/
theorem tier_for_exact_then_longest_prefix_then_default
    (p : RateLimitPolicy) (method : String) :
    (∀ t, p.method_overrides.lookup method = some t →
      p.tier_for method = t) ∧
    (p.method_overrides.lookup method = none →
      ((∃ pr ∈ p.prefRules, pyStartsWith method pr.1 = true ∧
          p.tier_for method = pr.2 ∧
          ∀ q ∈ p.prefRules, pyStartsWith method q.1 = true →
            q.1.length ≤ pr.1.length) ∨
        ((∀ q ∈ p.prefRules, pyStartsWith method q.1 = false) ∧
          p.tier_for method = p.default))) := by
  constructor
  · intro t ht
    simp [RateLimitPolicy.tier_for, ht]
  · intro hnone
    cases hfold : p.prefRules.foldl (tierStep method) none with
    | none =>
      right
      obtain ⟨-, hall⟩ := tierStep_foldl_none method p.prefRules none hfold
      refine ⟨hall, ?_⟩
      simp [RateLimitPolicy.tier_for, hnone, hfold]
    | some b =>
      left
      rcases tierStep_foldl_some_mem method p.prefRules none b hfold with
        ⟨hmem, hm⟩ | habs
      · obtain ⟨hall, -⟩ :=
          tierStep_foldl_some_max method p.prefRules none b hfold
        refine ⟨b, hmem, hm, ?_, hall⟩
        simp [RateLimitPolicy.tier_for, hnone, hfold]
      · exact absurd habs (by simp)

/-- Witness for C3 on the default policy: the exact override for
`"conversations.history"` beats the matching `"conversations."` prefix
rule, and `"admin.teams.list"` resolves through its longest matching
prefix rule. -/
theorem tier_for_exact_then_longest_prefix_then_default_witness :
    DEFAULT_RATE_POLICY.tier_for "conversations.history" =
      RateTier.TIER_3 ∧
    (∃ pr ∈ DEFAULT_RATE_POLICY.prefRules,
      pyStartsWith "admin.teams.list" pr.1 = true ∧
      DEFAULT_RATE_POLICY.tier_for "admin.teams.list" = pr.2 ∧
      ∀ q ∈ DEFAULT_RATE_POLICY.prefRules,
        pyStartsWith "admin.teams.list" q.1 = true →
          q.1.length ≤ pr.1.length) := by
  constructor
  · exact (tier_for_exact_then_longest_prefix_then_default
      DEFAULT_RATE_POLICY "conversations.history").1 RateTier.TIER_3
      (by decide)
  · rcases (tier_for_exact_then_longest_prefix_then_default
      DEFAULT_RATE_POLICY "admin.teams.list").2 (by decide) with h | h
    · exact h
    · exact absurd (h.1 ("admin.", RateTier.TIER_1) (by decide)) (by decide)

/-- A terminal attempt ends `callFuel` at this level, whatever the fuel:
one send, and only this level's sleeps. -/
lemma callFuel_finish {α κ : Type} (t : Nat → TransportResult α)
    (m : String) (uj : Bool) (kw : κ) (p : RateLimitPolicy)
    (rt : Option RateTier) (fuel r : Nat) (res : Except CallError α)
    (w : List ℚ)
    (hA : SlackApiCaller.attempt t m rt p r = .finish res w) :
    SlackApiCaller.callFuel t m uj kw p rt fuel r =
      (res, [(⟨m, kw, uj⟩ : SendEvent κ)], w) := by
  cases fuel with
  | zero => simp [SlackApiCaller.callFuel, hA]
  | succ f => simp [SlackApiCaller.callFuel, hA]

/-- A retrying attempt prepends this level's send and wait to the
recursive call made with `rate_tier=tier` and `_retry_count + 1`. -/
lemma callFuel_retry {α κ : Type} (t : Nat → TransportResult α)
    (m : String) (uj : Bool) (kw : κ) (p : RateLimitPolicy)
    (rt : Option RateTier) (fuel r : Nat) (ra : ℚ)
    (hA : SlackApiCaller.attempt t m rt p r = .retryAfter ra) :
    SlackApiCaller.callFuel t m uj kw p rt (fuel + 1) r =
      ((SlackApiCaller.callFuel t m uj kw p
          (some (rt.getD (p.tier_for m))) fuel (r + 1)).1,
       (⟨m, kw, uj⟩ : SendEvent κ) ::
         (SlackApiCaller.callFuel t m uj kw p
           (some (rt.getD (p.tier_for m))) fuel (r + 1)).2.1,
       ra :: (SlackApiCaller.callFuel t m uj kw p
           (some (rt.getD (p.tier_for m))) fuel (r + 1)).2.2) := by
  simp [SlackApiCaller.callFuel, hA]

/-- Under a transport that reports HTTP 429 on every attempt, `callFuel`
at fuel `5 - r` fails with the throttle-exhaustion error after exactly
`fuel + 1` sends. -/
lemma callFuel_allThrottled {α κ : Type} (transport : Nat → TransportResult α)
    (method : String) (uj : Bool) (kw : κ) (policy : RateLimitPolicy)
    (hthr : ∀ n, ∃ hdr, transport n = .apiError 429 hdr) :
    ∀ (fuel r : Nat) (rt : Option RateTier), fuel = 5 - r →
      (SlackApiCaller.callFuel transport method uj kw policy rt fuel r).1 =
        .error (.throttleExhausted method) ∧
      (SlackApiCaller.callFuel transport method uj kw policy rt
          fuel r).2.1.length = fuel + 1 := by
  intro fuel
  induction fuel with
  | zero =>
    intro r rt hfr
    have hr : 5 ≤ r := by omega
    obtain ⟨hdr, h⟩ := hthr r
    simp [SlackApiCaller.callFuel, SlackApiCaller.attempt, h, hr]
  | succ f ih =>
    intro r rt hfr
    have hr : ¬ 5 ≤ r := by omega
    obtain ⟨hdr, h⟩ := hthr r
    have hih := ih (r + 1) (some (rt.getD (policy.tier_for method)))
      (by omega)
    simp [SlackApiCaller.callFuel, SlackApiCaller.attempt, h, hr]
    exact ⟨hih.1, by rw [hih.2]⟩

/-- C1: if the transport signals throttling (HTTP 429) on every attempt,
`SlackApiCaller.call` makes exactly 6 transport invocations in total and
fails with the throttle-exhaustion `RuntimeError` naming the operation; no
transport call follows the failure (the trace has exactly those 6
entries). -/
theorem call_six_sends_then_throttle_exhausted {α κ : Type}
    (transport : Nat → TransportResult α) (method : String)
    (rt : Option RateTier) (uj : Bool) (kw : κ) (policy : RateLimitPolicy)
    (hthr : ∀ n, ∃ hdr, transport n = .apiError 429 hdr) :
    (SlackApiCaller.call transport method rt uj kw policy 0).1 =
      .error (.throttleExhausted method) ∧
    (SlackApiCaller.call transport method rt uj kw policy 0).2.1.length
      = 6 := by
  have h := callFuel_allThrottled transport method uj kw policy hthr 5 0 rt
    (by norm_num)
  exact ⟨h.1, h.2⟩

/-- A transport that reports HTTP 429 (no `Retry-After` header) forever. -/
def alwaysThrottleT : Nat → TransportResult Nat := fun _ =>
  .apiError 429 none

/-- Witness for C1 at a concrete always-throttling transport. -/
theorem call_six_sends_then_throttle_exhausted_witness :
    (SlackApiCaller.call alwaysThrottleT "users.info" none false ()
        DEFAULT_RATE_POLICY 0).1 =
      .error (.throttleExhausted "users.info") ∧
    (SlackApiCaller.call alwaysThrottleT "users.info" none false ()
        DEFAULT_RATE_POLICY 0).2.1.length = 6 :=
  call_six_sends_then_throttle_exhausted alwaysThrottleT "users.info" none
    false () DEFAULT_RATE_POLICY (fun _ => ⟨none, rfl⟩)

/-- C2 (amended): on a throttled attempt with retries left, a numeric
`Retry-After` hint is used verbatim as an integer number of seconds, and a
missing or unparsable hint makes the wait the *integer truncation* of the
operation's resolved fallback pacing interval (`int(float(tier))`, e.g. 1
second for a Tier-3 operation, not 1.2); in every case the malformed hint
does not fail the call, whose outcome is exactly the retried call's
outcome. -/
theorem retry_wait_uses_hint_or_truncated_fallback {α κ : Type}
    (t : Nat → TransportResult α) (m : String) (rt : Option RateTier)
    (uj : Bool) (kw : κ) (p : RateLimitPolicy) (r : Nat)
    (hdr : Option String) (tier : RateTier) (hr : r < 5)
    (hthr : t r = .apiError 429 hdr)
    (htier : tier = rt.getD (p.tier_for m)) :
    (SlackApiCaller.call t m rt uj kw p r).1 =
      (SlackApiCaller.call t m (some tier) uj kw p (r + 1)).1 ∧
    ((hdr = none ∨ ∃ s, hdr = some s ∧ pyIntOfString s = none) →
      (SlackApiCaller.call t m rt uj kw p r).2.2.head? =
        some ((pyTrunc tier.toRat : ℤ) : ℚ)) ∧
    (∀ s n, hdr = some s → pyIntOfString s = some n →
      (SlackApiCaller.call t m rt uj kw p r).2.2.head? = some ((n : ℤ) : ℚ)) := by
  subst htier
  have hnr : ¬ 5 ≤ r := by omega
  have hstep : ∀ ra : ℚ, SlackApiCaller.attempt t m rt p r = .retryAfter ra →
      (SlackApiCaller.call t m rt uj kw p r).1 =
        (SlackApiCaller.call t m (some (rt.getD (p.tier_for m))) uj kw p
          (r + 1)).1 ∧
      (SlackApiCaller.call t m rt uj kw p r).2.2.head? = some ra := by
    intro ra hA
    have h54 : 5 - r = (4 - r) + 1 := by omega
    have h45 : 5 - (r + 1) = 4 - r := by omega
    simp only [SlackApiCaller.call, h54, h45]
    rw [callFuel_retry t m uj kw p rt (4 - r) r ra hA]
    exact ⟨rfl, rfl⟩
  refine ⟨?_, ?_, ?_⟩
  · rcases hdr with _ | s
    · have hA : SlackApiCaller.attempt t m rt p r =
          .retryAfter ((pyTrunc (rt.getD (p.tier_for m)).toRat : ℤ) : ℚ) := by
        simp [SlackApiCaller.attempt, hthr, hnr]
      exact (hstep _ hA).1
    · cases hp : pyIntOfString s with
      | none =>
        have hA : SlackApiCaller.attempt t m rt p r =
            .retryAfter ((pyTrunc (rt.getD (p.tier_for m)).toRat : ℤ) : ℚ) := by
          simp [SlackApiCaller.attempt, hthr, hnr, hp]
        exact (hstep _ hA).1
      | some n =>
        have hA : SlackApiCaller.attempt t m rt p r =
            .retryAfter ((n : ℤ) : ℚ) := by
          simp [SlackApiCaller.attempt, hthr, hnr, hp]
        exact (hstep _ hA).1
  · rintro (hnone | ⟨s, hs, hp⟩)
    · subst hnone
      have hA : SlackApiCaller.attempt t m rt p r =
          .retryAfter ((pyTrunc (rt.getD (p.tier_for m)).toRat : ℤ) : ℚ) := by
        simp [SlackApiCaller.attempt, hthr, hnr]
      exact (hstep _ hA).2
    · subst hs
      have hA : SlackApiCaller.attempt t m rt p r =
          .retryAfter ((pyTrunc (rt.getD (p.tier_for m)).toRat : ℤ) : ℚ) := by
        simp [SlackApiCaller.attempt, hthr, hnr, hp]
      exact (hstep _ hA).2
  · intro s n hs hp
    subst hs
    have hA : SlackApiCaller.attempt t m rt p r =
        .retryAfter ((n : ℤ) : ℚ) := by
      simp [SlackApiCaller.attempt, hthr, hnr, hp]
    exact (hstep _ hA).2

/-- A transport throttling the first attempt with the unparsable hint
`"not-a-number"`, then succeeding. -/
def cx2T : Nat → TransportResult Nat := fun n =>
  if n = 0 then .apiError 429 (some "not-a-number") else .success 7

/-- Counterexample to C2 as stated: for the Tier-3 operation
`"chat.postMessage"` throttled with hint `"not-a-number"`, the wait before
the retry is 1 second, not the resolved fallback interval 1.2 seconds (the
source truncates with `int(float(tier))`); the call itself still
succeeds. -/
theorem malformed_hint_wait_is_not_fallback_interval :
    DEFAULT_RATE_POLICY.tier_for "chat.postMessage" = RateTier.TIER_3 ∧
    (SlackApiCaller.call cx2T "chat.postMessage" none false ()
        DEFAULT_RATE_POLICY 0).2.2.head? = some 1 ∧
    (1 : ℚ) ≠ RateTier.TIER_3.toRat ∧
    (SlackApiCaller.call cx2T "chat.postMessage" none false ()
        DEFAULT_RATE_POLICY 0).1 = .ok 7 := by
  decide

/-- Witness for the amended C2 at the `"not-a-number"` transport. -/
theorem retry_wait_uses_hint_or_truncated_fallback_witness :
    (SlackApiCaller.call cx2T "chat.postMessage" none false ()
        DEFAULT_RATE_POLICY 0).2.2.head? =
      some ((pyTrunc (DEFAULT_RATE_POLICY.tier_for
        "chat.postMessage").toRat : ℤ) : ℚ) :=
  (retry_wait_uses_hint_or_truncated_fallback cx2T "chat.postMessage" none
      false () DEFAULT_RATE_POLICY 0 (some "not-a-number")
      (DEFAULT_RATE_POLICY.tier_for "chat.postMessage") (by omega) rfl
      rfl).2.1
    (Or.inr ⟨"not-a-number", rfl, by decide⟩)

lemma takeSum_cons_succ {α : Type} (p : Page α) (rest : List (Page α))
    (j : Nat) :
    takeSum (p :: rest) (j + 1) = p.messages.length + takeSum rest j := by
  simp [takeSum, List.take_succ_cons]

/-- Evaluation of one loop iteration with a limit, on an ok page. -/
lemma collectPages_cons_some {α : Type} (l : Nat) (p : Page α)
    (rest : List (Page α)) (acc : List α) (hok : p.ok = true) :
    collectPages (some l) (p :: rest) acc =
      (if l ≤ (acc ++ p.messages).length then
        (.done ((acc ++ p.messages).take l), 1)
      else if p.next_cursor = "" then (.done (acc ++ p.messages), 1)
      else ((collectPages (some l) rest (acc ++ p.messages)).1,
            (collectPages (some l) rest (acc ++ p.messages)).2 + 1)) := by
  simp [collectPages, hok]

/-- Evaluation of one loop iteration without a limit, on an ok page. -/
lemma collectPages_cons_none {α : Type} (p : Page α)
    (rest : List (Page α)) (acc : List α) (hok : p.ok = true) :
    collectPages none (p :: rest) acc =
      (if p.next_cursor = "" then (.done (acc ++ p.messages), 1)
      else ((collectPages none rest (acc ++ p.messages)).1,
            (collectPages none rest (acc ++ p.messages)).2 + 1)) := by
  simp [collectPages, hok]

/-- Without a limit, the loop consumes exactly the run and concatenates
every page's items onto the accumulator. -/
lemma collectPages_none_run {α : Type} (ps : List (Page α))
    (h : LastEmptyRun ps) :
    ∀ acc : List α,
      collectPages none ps acc =
        (.done (acc ++ (ps.map Page.messages).flatten), ps.length) := by
  induction h with
  | single p hok hc =>
    intro acc
    rw [collectPages_cons_none p [] acc hok, if_pos hc]
    simp
  | cons p rest hok hc h ih =>
    intro acc
    rw [collectPages_cons_none p rest acc hok, if_neg hc,
      ih (acc ++ p.messages)]
    simp [List.append_assoc]

/-- With a limit not exceeding the available items, the loop returns the
truncated concatenation and stops at the first page on which the
accumulator reaches the limit. -/
lemma collectPages_some_run {α : Type} (ps : List (Page α))
    (h : LastEmptyRun ps) :
    ∀ (acc : List α) (l : Nat),
      l ≤ (acc ++ (ps.map Page.messages).flatten).length →
      ∃ j, collectPages (some l) ps acc =
          (.done ((acc ++ (ps.map Page.messages).flatten).take l), j) ∧
        1 ≤ j ∧ j ≤ ps.length ∧
        l ≤ acc.length + takeSum ps j ∧
        ∀ i, 1 ≤ i → i < j → acc.length + takeSum ps i < l := by
  induction h with
  | single p hok hc =>
    intro acc l hl
    have hlen : l ≤ (acc ++ p.messages).length := by simpa using hl
    refine ⟨1, ?_, le_refl 1, le_refl 1, ?_, fun i h1 hi => by omega⟩
    · rw [collectPages_cons_some l p [] acc hok, if_pos hlen]
      simp
    · have ht : takeSum [p] 1 = p.messages.length := by simp [takeSum]
      rw [ht]
      simpa using hlen
  | cons p rest hok hc h ih =>
    intro acc l hl
    by_cases hlim : l ≤ (acc ++ p.messages).length
    · have htake : (acc ++ ((p :: rest).map Page.messages).flatten).take l =
          (acc ++ p.messages).take l := by
        simp only [List.map_cons, List.flatten_cons]
        rw [← List.append_assoc]
        exact List.take_append_of_le_length hlim
      refine ⟨1, ?_, le_refl 1, by simp, ?_, fun i h1 hi => by omega⟩
      · rw [collectPages_cons_some l p rest acc hok, if_pos hlim, htake]
      · rw [takeSum_cons_succ]
        simp only [List.length_append] at hlim
        omega
    · push_neg at hlim
      have hl2 : l ≤ ((acc ++ p.messages) ++
          (rest.map Page.messages).flatten).length := by
        simpa [List.append_assoc] using hl
      obtain ⟨j, hj, hj1, hjlen, hjsum, hjmin⟩ :=
        ih (acc ++ p.messages) l hl2
      have hnot : ¬ l ≤ (acc ++ p.messages).length := by omega
      refine ⟨j + 1, ?_, by omega, by simpa using Nat.add_le_add_right hjlen 1,
        ?_, ?_⟩
      · rw [collectPages_cons_some l p rest acc hok, if_neg hnot, if_neg hc,
          hj]
        simp [List.append_assoc]
      · rw [takeSum_cons_succ]
        simp only [List.length_append] at hjsum
        omega
      · intro i h1 hi
        cases i with
        | zero => omega
        | succ i2 =>
          rw [takeSum_cons_succ]
          cases Nat.eq_zero_or_pos i2 with
          | inl h0 =>
            subst h0
            simp only [takeSum, List.take_zero, List.map_nil, List.sum_nil]
            simp only [List.length_append] at hlim
            omega
          | inr hpos =>
            have hmin := hjmin i2 hpos (by omega)
            simp only [List.length_append] at hmin
            omega

/-- C5: when the fetcher's pages are all ok and the k-th page is the first
with an empty next-cursor, the pagination loop of `Messages.get_messages`
(and `get_message_threads`) returns the concatenation of all page item
lists in exactly k fetches; and for a supplied limit not exceeding the
available items, it returns exactly the first `limit` items — truncating
the batch that reached the limit — and stops fetching at the first page on
which the accumulator reached or exceeded the limit. -/
theorem get_messages_pagination {α : Type} (ps : List (Page α))
    (h : LastEmptyRun ps) :
    collectPages none ps [] =
      (.done ((ps.map Page.messages).flatten), ps.length) ∧
    ∀ l : Nat, l ≤ ((ps.map Page.messages).flatten).length →
      ∃ j, collectPages (some l) ps [] =
          (.done (((ps.map Page.messages).flatten).take l), j) ∧
        1 ≤ j ∧ j ≤ ps.length ∧ l ≤ takeSum ps j ∧
        ∀ i, 1 ≤ i → i < j → takeSum ps i < l := by
  constructor
  · simpa using collectPages_none_run ps h []
  · intro l hl
    obtain ⟨j, hj, h1, h2, h3, h4⟩ :=
      collectPages_some_run ps h [] l (by simpa using hl)
    exact ⟨j, by simpa using hj, h1, h2, by simpa using h3,
      fun i hi1 hi2 => by simpa using h4 i hi1 hi2⟩

/-- Three ok pages of two items each, the third with an empty cursor. -/
def pages3 : List (Page Nat) :=
  [⟨true, [1, 2], "c1"⟩, ⟨true, [3, 4], "c2"⟩, ⟨true, [5, 6], ""⟩]

/-- Witness for C5: 3 pages × 2 items give 6 items in 3 fetches; a limit
of 4 gives exactly the first 4 items, fetching stopping at page 2. -/
theorem get_messages_pagination_witness :
    collectPages none pages3 [] = (.done [1, 2, 3, 4, 5, 6], 3) ∧
    (∃ j, collectPages (some 4) pages3 [] = (.done [1, 2, 3, 4], j) ∧
      1 ≤ j ∧ j ≤ 3 ∧ 4 ≤ takeSum pages3 j ∧
      ∀ i, 1 ≤ i → i < j → takeSum pages3 i < 4) := by
  have hrun : LastEmptyRun pages3 :=
    .cons _ _ rfl (by decide) (.cons _ _ rfl (by decide) (.single _ rfl rfl))
  have h := get_messages_pagination pages3 hrun
  exact ⟨h.1, h.2 4 (by decide)⟩

/-- Every send `callFuel` performs carries the original method, kwargs and
`use_json` flag, at every fuel and retry count. -/
lemma callFuel_sends_const {α κ : Type} (t : Nat → TransportResult α)
    (m : String) (uj : Bool) (kw : κ) (p : RateLimitPolicy) :
    ∀ (fuel r : Nat) (rt : Option RateTier),
      ∀ e ∈ (SlackApiCaller.callFuel t m uj kw p rt fuel r).2.1,
        e = (⟨m, kw, uj⟩ : SendEvent κ) := by
  intro fuel
  induction fuel with
  | zero =>
    intro r rt e he
    cases hA : SlackApiCaller.attempt t m rt p r with
    | finish res w =>
      rw [callFuel_finish t m uj kw p rt 0 r res w hA] at he
      simpa using he
    | retryAfter ra =>
      simp [SlackApiCaller.callFuel, hA] at he
      simp [he]
  | succ f ih =>
    intro r rt e he
    cases hA : SlackApiCaller.attempt t m rt p r with
    | finish res w =>
      rw [callFuel_finish t m uj kw p rt (f + 1) r res w hA] at he
      simpa using he
    | retryAfter ra =>
      rw [callFuel_retry t m uj kw p rt f r ra hA] at he
      rcases List.mem_cons.mp he with he | he
      · exact he
      · exact ih (r + 1) (some (rt.getD (p.tier_for m))) e he

/-- C4: every attempt of a call — the first and every retry, however many
throttle signals intervene — sends the same method, the same keyword
arguments and the same `use_json` request-encoding flag: the transport
trace is a constant list. -/
theorem call_preserves_args_and_encoding {α κ : Type}
    (t : Nat → TransportResult α) (m : String) (rt : Option RateTier)
    (uj : Bool) (kw : κ) (p : RateLimitPolicy) :
    (SlackApiCaller.call t m rt uj kw p 0).2.1 =
      List.replicate (SlackApiCaller.call t m rt uj kw p 0).2.1.length
        (⟨m, kw, uj⟩ : SendEvent κ) :=
  List.eq_replicate_of_mem
    (callFuel_sends_const t m uj kw p (5 - 0) 0 rt)

/-- C8: a transport failure that is not a throttle signal — a
`SlackApiError` with a status other than 429, one with no response, or a
non-Slack exception — is propagated unchanged, with exactly one transport
invocation and no sleep of any kind. -/
theorem call_propagates_non_throttle {α κ : Type}
    (t : Nat → TransportResult α) (m : String) (rt : Option RateTier)
    (uj : Bool) (kw : κ) (p : RateLimitPolicy) (err : CallError)
    (h : SlackApiCaller.asNonThrottleError (t 0) = some err) :
    SlackApiCaller.call t m rt uj kw p 0 =
      (.error err, [(⟨m, kw, uj⟩ : SendEvent κ)], []) := by
  have hA : SlackApiCaller.attempt t m rt p 0 = .finish (.error err) [] := by
    cases ht : t 0 with
    | success d =>
      rw [ht] at h
      simp [SlackApiCaller.asNonThrottleError] at h
    | apiError s hdr =>
      rw [ht] at h
      by_cases hs : s = 429
      · subst hs
        simp [SlackApiCaller.asNonThrottleError] at h
      · simp [SlackApiCaller.asNonThrottleError, hs] at h
        simp [SlackApiCaller.attempt, ht, hs, ← h]
    | apiErrorNoResponse =>
      rw [ht] at h
      simp [SlackApiCaller.asNonThrottleError] at h
      simp [SlackApiCaller.attempt, ht, ← h]
    | otherError =>
      rw [ht] at h
      simp [SlackApiCaller.asNonThrottleError] at h
      simp [SlackApiCaller.attempt, ht, ← h]
  exact callFuel_finish t m uj kw p rt (5 - 0) 0 (.error err) [] hA

/-- A transport whose first attempt fails with HTTP 500 (no throttle). -/
def http500T : Nat → TransportResult Nat := fun _ => .apiError 500 none

/-- Witness for C8 at a concrete non-throttling failure. -/
theorem call_propagates_non_throttle_witness :
    SlackApiCaller.call http500T "users.info" none false ()
        DEFAULT_RATE_POLICY 0 =
      (.error (.slackApi 500 none), [(⟨"users.info", (), false⟩ :
        SendEvent Unit)], []) :=
  call_propagates_non_throttle http500T "users.info" none false ()
    DEFAULT_RATE_POLICY (.slackApi 500 none) (by decide)

/-- C6 (amended): `_scim_request` performs no retry and no backoff at all:
with a usable token and `raise_for_status`, a server answering HTTP 429
causes exactly one transport invocation, no sleep, and the
`requests.HTTPError` is surfaced immediately. -/
theorem scim_request_no_retry_on_throttle (cfg : SlackObjectsConfig)
    (policy : RateLimitPolicy) (session : ScimRequest → HttpResp)
    (path method : String) (payload : Option (List (String × PyVal)))
    (token : Option String) (rate_tier : Option RateTier)
    (htok : pyTruthy (pyOrStr token cfg.scim_token) = true)
    (h429 : (session (ScimMixin.scimRequestOf cfg path method payload
      ((pyOrStr token cfg.scim_token).getD ""))).status_code = 429) :
    ScimMixin._scim_request cfg policy session path method payload token
        true rate_tier =
      (.error (.httpError 429),
       [ScimMixin.scimRequestOf cfg path method payload
         ((pyOrStr token cfg.scim_token).getD "")], []) := by
  simp [ScimMixin._scim_request, htok, h429, respOk]

/-- A SCIM-capable configuration with only a SCIM token set. -/
def scimCfg : SlackObjectsConfig :=
  { bot_token := none, user_token := none, scim_token := some "scim-token",
    default_rate_tier := .TIER_2, auth_idp_groups_read_access := [],
    auth_idp_groups_write_access := [],
    scim_base_url := "https://api.slack.com/scim", scim_version := "v2",
    http_timeout_seconds := 30 }

/-- A SCIM server that answers HTTP 429 to every request. -/
def session429 : ScimRequest → HttpResp := fun _ =>
  { status_code := 429, text := "", jsonBody := none }

/-- Counterexample to C6 as stated: against an always-throttling SCIM
server, `_scim_request` performs exactly ONE transport invocation and
surfaces the failure immediately — not the 6 attempts (5 transparent
retries with waits) that "same dispatch/backoff behaviour as the Web
dispatcher" requires, and with no wait at all. -/
theorem scim_throttle_one_send_not_six :
    (ScimMixin._scim_request scimCfg DEFAULT_RATE_POLICY session429
        "Users" "GET" none none true none).1 = .error (.httpError 429) ∧
    (ScimMixin._scim_request scimCfg DEFAULT_RATE_POLICY session429
        "Users" "GET" none none true none).2.1.length = 1 ∧
    (ScimMixin._scim_request scimCfg DEFAULT_RATE_POLICY session429
        "Users" "GET" none none true none).2.2 = [] ∧
    (1 : Nat) ≠ 6 :=
  ⟨rfl, rfl, rfl, by decide⟩

/-- Witness for the amended C6 at the concrete always-429 server. -/
theorem scim_request_no_retry_on_throttle_witness :
    ScimMixin._scim_request scimCfg DEFAULT_RATE_POLICY session429
        "Users" "GET" none none true none =
      (.error (.httpError 429),
       [ScimMixin.scimRequestOf scimCfg "Users" "GET" none
         ((pyOrStr none scimCfg.scim_token).getD "")], []) :=
  scim_request_no_retry_on_throttle scimCfg DEFAULT_RATE_POLICY session429
    "Users" "GET" none none none (by decide) rfl

/-- C7 (amended): a returned `ScimResponse` has `ok = true` exactly when
the HTTP status is non-failing (not 400–599) AND `data.get("Errors") is
None` — i.e. the decoded body's `Errors` key is absent *or* bound to JSON
`null`; a present non-null `Errors` under HTTP 200 gives `ok = false`,
but a present `Errors: null` does not. -/
theorem scim_ok_iff_status_and_get_errors_none (cfg : SlackObjectsConfig)
    (policy : RateLimitPolicy) (session : ScimRequest → HttpResp)
    (path method : String) (payload : Option (List (String × PyVal)))
    (token : Option String) (rfs : Bool) (rate_tier : Option RateTier)
    (r : ScimResponse)
    (hres : (ScimMixin._scim_request cfg policy session path method payload
      token rfs rate_tier).1 = .ok r) :
    r.ok = true ↔
      (respOk r.status_code = true ∧ pyGetIsNone r.data "Errors" = true) := by
  unfold ScimMixin._scim_request at hres
  dsimp only at hres
  split at hres
  · exact absurd hres (by simp)
  · split at hres
    · exact absurd hres (by simp)
    · dsimp only at hres
      rw [Except.ok.injEq] at hres
      subst hres
      dsimp only
      rw [Bool.and_eq_true]

/-- A SCIM server answering HTTP 200 with a body whose `Errors` key is
bound to JSON `null`. -/
def session200Errors : ScimRequest → HttpResp := fun _ =>
  { status_code := 200, text := "x", jsonBody := some [("Errors", PyVal.null)] }

/-- Counterexample to C7 as stated: an HTTP 200 response whose decoded
body CONTAINS an `Errors` field (bound to JSON `null`) is still classified
`ok = true`, because the source tests `data.get("Errors") is None`, which
cannot distinguish an absent key from a null one. -/
theorem scim_ok_true_despite_errors_key :
    (ScimMixin._scim_request scimCfg DEFAULT_RATE_POLICY session200Errors
        "Users" "GET" none none true none).1 =
      .ok { ok := true, status_code := 200,
            data := [("Errors", PyVal.null)], text := "x" } ∧
    (List.lookup "Errors" [("Errors", PyVal.null)]).isSome = true :=
  ⟨rfl, rfl⟩

/-- Witness for the amended C7 at the `Errors: null` server. -/
theorem scim_ok_iff_status_and_get_errors_none_witness :
    respOk 200 = true ∧
    pyGetIsNone [("Errors", PyVal.null)] "Errors" = true :=
  (scim_ok_iff_status_and_get_errors_none scimCfg DEFAULT_RATE_POLICY
      session200Errors "Users" "GET" none none true none
      { ok := true, status_code := 200, data := [("Errors", PyVal.null)],
        text := "x" } rfl).mp rfl

/-- C9: `validate_scim_id` returns the value unchanged exactly when it is
non-empty and matches `^[A-Za-z0-9_\-]+$` (under Python `re` semantics),
and otherwise raises the `ValueError` naming exactly the offending label
and value. -/
theorem validate_scim_id_spec (value label : String) :
    (validate_scim_id value label = .ok value ↔
      (value ≠ "" ∧ pyMatchIdRe value = true)) ∧
    ∀ e, validate_scim_id value label = .error e → e = ⟨label, value⟩ := by
  unfold validate_scim_id
  constructor
  · constructor
    · intro h
      split at h
      · exact absurd h (by simp)
      · next hc =>
        rw [Bool.or_eq_true, not_or] at hc
        obtain ⟨hc1, hc2⟩ := hc
        refine ⟨by simpa using hc1, ?_⟩
        simpa using hc2
    · rintro ⟨h1, h2⟩
      rw [if_neg]
      simp [h1, h2]
  · intro e h
    split at h
    · exact (Except.error.inj h).symm
    · exact absurd h (by simp)

/-- Witness for C9 at the spec's probe inputs: `"U12345"` is returned
unchanged, while `"../../admin"`, `""` and `"U1;DROP"` are each rejected
with the error naming the label and value. -/
theorem validate_scim_id_spec_witness :
    validate_scim_id "U12345" "user_id" = .ok "U12345" ∧
    validate_scim_id "../../admin" "group_id" =
      .error ⟨"group_id", "../../admin"⟩ ∧
    validate_scim_id "" "user_id" = .error ⟨"user_id", ""⟩ ∧
    validate_scim_id "U1;DROP" "user_id" =
      .error ⟨"user_id", "U1;DROP"⟩ :=
  ⟨(validate_scim_id_spec "U12345" "user_id").1.mpr
      ⟨by decide, by decide⟩,
   rfl, rfl, rfl⟩

/-- C10 (amended): two configurations whose non-token fields agree and
whose tokens have pairwise equal Python-truthiness (both non-empty, or
both `None`-or-empty) produce identical `repr` output — a truthy token is
rendered `***` and a falsy one `None`, so no token value appears. -/
theorem repr_identical_under_token_truthiness
    (c1 c2 : SlackObjectsConfig)
    (hb : pyTruthy c1.bot_token = pyTruthy c2.bot_token)
    (hu : pyTruthy c1.user_token = pyTruthy c2.user_token)
    (hs : pyTruthy c1.scim_token = pyTruthy c2.scim_token)
    (hrest : c1.default_rate_tier = c2.default_rate_tier ∧
      c1.auth_idp_groups_read_access = c2.auth_idp_groups_read_access ∧
      c1.auth_idp_groups_write_access = c2.auth_idp_groups_write_access ∧
      c1.scim_base_url = c2.scim_base_url ∧
      c1.scim_version = c2.scim_version ∧
      c1.http_timeout_seconds = c2.http_timeout_seconds) :
    c1.reprStr = c2.reprStr := by
  obtain ⟨h1, h2, h3, h4, h5, h6⟩ := hrest
  simp [SlackObjectsConfig.reprStr, mask, hb, hu, hs, h1, h2, h3, h4, h5, h6]

/-- A configuration whose bot token is the empty string (non-`None`). -/
def cfgEmptyTok : SlackObjectsConfig :=
  { bot_token := some "", user_token := none, scim_token := none,
    default_rate_tier := .TIER_2, auth_idp_groups_read_access := [],
    auth_idp_groups_write_access := [],
    scim_base_url := "https://api.slack.com/scim", scim_version := "v2",
    http_timeout_seconds := 30 }

/-- `cfgEmptyTok` with the bot token `"x"` instead of `""`. -/
def cfgTokX : SlackObjectsConfig := { cfgEmptyTok with bot_token := some "x" }

/-- `cfgEmptyTok` with the bot token `"y"` instead of `""`. -/
def cfgTokY : SlackObjectsConfig := { cfgEmptyTok with bot_token := some "y" }

/-- Counterexample to C10 as stated: two configurations differing only in
the string contents of `bot_token` — both non-`None` — yield different
`repr` output, because `_mask` tests Python truthiness, rendering the
empty-string token as `None` and the non-empty one as `***`. -/
theorem repr_differs_for_nonNone_tokens :
    cfgEmptyTok.bot_token ≠ none ∧ cfgTokX.bot_token ≠ none ∧
    cfgEmptyTok.user_token = cfgTokX.user_token ∧
    cfgEmptyTok.scim_token = cfgTokX.scim_token ∧
    cfgEmptyTok.default_rate_tier = cfgTokX.default_rate_tier ∧
    cfgEmptyTok.auth_idp_groups_read_access =
      cfgTokX.auth_idp_groups_read_access ∧
    cfgEmptyTok.auth_idp_groups_write_access =
      cfgTokX.auth_idp_groups_write_access ∧
    cfgEmptyTok.scim_base_url = cfgTokX.scim_base_url ∧
    cfgEmptyTok.scim_version = cfgTokX.scim_version ∧
    cfgEmptyTok.http_timeout_seconds = cfgTokX.http_timeout_seconds ∧
    cfgEmptyTok.reprStr ≠ cfgTokX.reprStr := by
  decide

/-- Witness for the amended C10 at two truthy bot tokens. -/
theorem repr_identical_under_token_truthiness_witness :
    cfgTokX.reprStr = cfgTokY.reprStr :=
  repr_identical_under_token_truthiness cfgTokX cfgTokY (by decide)
    (by decide) (by decide) ⟨rfl, rfl, rfl, rfl, rfl, rfl⟩

end SlackObjects
